import Mathlib

/-!
# Verification of the bamber19-icesheets pipeline

Shallow embedding of the Bamber et al. 2019 ice-sheet sea-level module
(`bamber19_icesheets_preprocess.py`, `bamber19_icesheets_project.py`,
`bamber19_icesheets_postprocess.py`).  Floating-point values are modelled
by exact rationals, numpy arrays by nested lists, and the seeded random
generator by a stream `Nat → ℚ` of unit draws consumed in program order.
-/

set_option autoImplicit false
set_option maxRecDepth 10000

/-! ### numpy-style list primitives -/

/-- `a[mask]` for a boolean mask: keep the elements at the positions where
the mask is `true` (numpy boolean fancy indexing; the result is a copy). -/
def boolGather {α : Type} : List α → List Bool → List α
  | _, [] => []
  | [], _ :: _ => []
  | x :: xs, b :: bs => if b then x :: boolGather xs bs else boolGather xs bs

/-- `dst[mask] = src`: the positions of `dst` where the mask is `true`
receive the successive elements of `src`; the others keep their value
(numpy boolean-mask assignment, mutating only `dst`). -/
def boolScatter {α : Type} : List α → List Bool → List α → List α
  | [], _, _ => []
  | ds, [], _ => ds
  | d :: ds, b :: bs, src =>
      if b then
        match src with
        | [] => d :: boolScatter ds bs []
        | s :: ss => s :: boolScatter ds bs ss
      else d :: boolScatter ds bs src

/-- `rows[inds, :]` for an integer index vector (numpy integer fancy
indexing; the result is a fresh copy, never a view). -/
def fancyGather (rows : List (List ℚ)) (inds : List Nat) : List (List ℚ) :=
  inds.map (fun i => rows.getD i [])

/-- `np.arange(a, b)` over the integers. -/
def arangeL (a b : ℤ) : List ℤ :=
  (List.range (b - a).toNat).map (fun k => a + Int.ofNat k)

/-- `np.arange(a, b, st)` over the integers, for a positive step. -/
def arangeStep (a b st : ℤ) : List ℤ :=
  (List.range ((b - a + st - 1) / st).toNat).map
    (fun k => a + st * Int.ofNat k)

/-- `l[i:j]` (Python slice). -/
def sliceL {α : Type} (l : List α) (i j : Nat) : List α :=
  (l.take j).drop i

/-- Columnwise sum of a rectangular list-of-rows matrix. -/
def colSum : List (List ℚ) → List ℚ
  | [] => []
  | [r] => r
  | r :: rs => List.zipWith (· + ·) r (colSum rs)

/-- `np.mean(m, axis=0)`: columnwise mean of a rectangular matrix. -/
def colMean (m : List (List ℚ)) : List ℚ :=
  (colSum m).map (fun s => s / (m.length : ℚ))

/-- Elementwise sum of two (sample × year) matrices. -/
def matAdd (a b : List (List ℚ)) : List (List ℚ) :=
  List.zipWith (List.zipWith (· + ·)) a b

/-- Elementwise sum of two (sample × year × location) cubes. -/
def cubeAdd (a b : List (List (List ℚ))) : List (List (List ℚ)) :=
  List.zipWith matAdd a b

/-- Triple-nested `getD` access into a (sample × year × location) cube. -/
def getD3 (c : List (List (List ℚ))) (s y l : Nat) : ℚ :=
  ((c.getD s []).getD y []).getD l 0

/-! ### `np.interp`

`interpLeft x left pts` is `np.interp(x, xp, fp, left=left)` on the
breakpoint list `pts = xp.zip fp` (assumed increasing in `xp`): `left`
below the first breakpoint, the last value above the last breakpoint,
and piecewise-linear interpolation in between. -/

def interpLeft (x left : ℚ) : List (ℚ × ℚ) → ℚ
  | [] => left
  | [p] => if x < p.1 then left else p.2
  | p :: q :: rest =>
      if x < p.1 then left
      else if x < q.1 then p.2 + (q.2 - p.2) * (x - p.1) / (q.1 - p.1)
      else interpLeft x left (q :: rest)

/-! ### Preprocess stage (`bamber19_icesheets_preprocess.py`) -/

/-- One core table of the `.mat` file: cell 27 is the years axis, cell 21
the (sample × variable × year) sample cube. -/
structure MatCore where
  years : List ℤ
  samps : List (List (List ℚ))

/-- The loaded `.mat` file, holding the high and low scenario cores. -/
structure MatFile where
  corefileH : MatCore
  corefileL : MatCore

/-- `FindRefVals(timeseries, years, baseyear)`: prepend a synthetic
`(year 2000, value 0.0)` anchor and linearly interpolate the trajectory
at `baseyear`, returning `0.0` (`left=0.0`) below the first breakpoint. -/
def FindRefVals (timeseries : List ℚ) (years : List ℤ) (baseyear : ℤ) : ℚ :=
  interpLeft (baseyear : ℚ) 0
    (((2000 : ℚ), (0 : ℚ))
      :: (years.map (fun y => (Int.cast y : ℚ))).zip timeseries)

/-- `np.isin(mat_years, targyears)`. -/
def isinMask (mat_years targyears : List ℤ) : List Bool :=
  mat_years.map (fun y => decide (y ∈ targyears))

/-- `samps[:, v, :]`: the per-sample rows of variable `v` (a view of the
sample cube in numpy). -/
def sheetOf (samps : List (List (List ℚ))) (v : Nat) : List (List ℚ) :=
  samps.map (fun s => s.getD v [])

/-- Result triple of `ExtractSamples` (wais, eais, gis). -/
structure ExtractRes where
  wais : List (List ℚ)
  eais : List (List ℚ)
  gis : List (List ℚ)
  deriving DecidableEq

/-- `ExtractSamples(mat, this_corefile, targyears, baseyear)`: pull the
EAIS/WAIS/GIS rows (variables 20/19/18), compute each member's reference
value with `FindRefVals`, subtract it from the full trajectory, then
subset the columns with the `np.isin` mask. -/
def ExtractSamples (mat : MatCore) (targyears : List ℤ) (baseyear : ℤ) :
    ExtractRes :=
  let mat_years_idx := isinMask mat.years targyears
  let eais_samps := sheetOf mat.samps 20
  let wais_samps := sheetOf mat.samps 19
  let gis_samps := sheetOf mat.samps 18
  let eais_refs := eais_samps.map (fun ts => FindRefVals ts mat.years baseyear)
  let wais_refs := wais_samps.map (fun ts => FindRefVals ts mat.years baseyear)
  let gis_refs := gis_samps.map (fun ts => FindRefVals ts mat.years baseyear)
  let eais_c := List.zipWith (fun ts r => ts.map (· - r)) eais_samps eais_refs
  let wais_c := List.zipWith (fun ts r => ts.map (· - r)) wais_samps wais_refs
  let gis_c := List.zipWith (fun ts r => ts.map (· - r)) gis_samps gis_refs
  ⟨wais_c.map (fun row => boolGather row mat_years_idx),
   eais_c.map (fun row => boolGather row mat_years_idx),
   gis_c.map (fun row => boolGather row mat_years_idx)⟩

/-- The state of the core table after `ExtractSamples` returns.  The
in-place `-=` on `samps[:, v, :]` (a numpy *view* of the loaded table,
for `v` in 18/19/20) writes the centered values back through the view,
so those variable rows of the raw table are overwritten. -/
def ExtractSamplesPostMat (mat : MatCore) (baseyear : ℤ) : MatCore :=
  ⟨mat.years,
   mat.samps.map (fun s =>
     s.mapIdx (fun v row =>
       if v = 18 ∨ v = 19 ∨ v = 20 then
         row.map (· - FindRefVals row mat.years baseyear)
       else row))⟩

/-- `ExtractSamples` as a state transformer: the pure result together
with the core table as it stands after the call. -/
def ExtractSamplesS (mat : MatCore) (targyears : List ℤ) (baseyear : ℤ) :
    ExtractRes × MatCore :=
  (ExtractSamples mat targyears baseyear, ExtractSamplesPostMat mat baseyear)

/-- `bamber19_preprocess_icesheets` with a climate data file: extract both
high and low scenario samples and derive the AIS totals. -/
structure PreprocessTD where
  eais_sampsH : List (List ℚ)
  wais_sampsH : List (List ℚ)
  ais_sampsH : List (List ℚ)
  gis_sampsH : List (List ℚ)
  eais_sampsL : List (List ℚ)
  wais_sampsL : List (List ℚ)
  ais_sampsL : List (List ℚ)
  gis_sampsL : List (List ℚ)
  targyears : List ℤ
  baseyear : ℤ
  deriving DecidableEq

/-- Output of `bamber19_preprocess_icesheets` without a climate data file
(single-scenario mode). -/
structure PreprocessSingle where
  eais_samps : List (List ℚ)
  wais_samps : List (List ℚ)
  ais_samps : List (List ℚ)
  gis_samps : List (List ℚ)
  targyears : List ℤ
  baseyear : ℤ
  deriving DecidableEq

/-- The module's scenario-to-corefile mapping (a Python dict lookup;
`none` models the `KeyError` on an unknown scenario). -/
def scenario_map (scenario : String) : Option String :=
  if scenario = "rcp85" then some "corefileH"
  else if scenario = "rcp26" then some "corefileL"
  else if scenario = "tlim2.0win0.25" then some "corefileL"
  else if scenario = "tlim5.0win0.25" then some "corefileH"
  else none

/-- `mat[this_corefile]` for the two known keys. -/
def matCoreOf (mat : MatFile) (key : String) : Option MatCore :=
  if key = "corefileH" then some mat.corefileH
  else if key = "corefileL" then some mat.corefileL
  else none

/-- `bamber19_preprocess_icesheets` when a climate data file is provided:
target years, both scenario extractions, and `ais = eais + wais`. -/
def bamber19_preprocess_icesheets (pyear_start pyear_end pyear_step
    baseyear : ℤ) (mat : MatFile) : PreprocessTD :=
  let targyears := arangeStep pyear_start (pyear_end + 1) pyear_step
  let resH := ExtractSamples mat.corefileH targyears baseyear
  let resL := ExtractSamples mat.corefileL targyears baseyear
  { eais_sampsH := resH.eais
    wais_sampsH := resH.wais
    ais_sampsH := matAdd resH.eais resH.wais
    gis_sampsH := resH.gis
    eais_sampsL := resL.eais
    wais_sampsL := resL.wais
    ais_sampsL := matAdd resL.eais resL.wais
    gis_sampsL := resL.gis
    targyears := targyears
    baseyear := baseyear }

/-- `bamber19_preprocess_icesheets` when no climate data file is provided:
look the scenario up in `scenario_map`, extract that core, and derive
`ais = eais + wais`. -/
def bamber19_preprocess_icesheets_single (pyear_start pyear_end pyear_step
    baseyear : ℤ) (scenario : String) (mat : MatFile) :
    Option PreprocessSingle :=
  let targyears := arangeStep pyear_start (pyear_end + 1) pyear_step
  (scenario_map scenario).bind (fun key =>
    (matCoreOf mat key).map (fun core =>
      let res := ExtractSamples core targyears baseyear
      { eais_samps := res.eais
        wais_samps := res.wais
        ais_samps := matAdd res.eais res.wais
        gis_samps := res.gis
        targyears := targyears
        baseyear := baseyear }))

/-! ### Projection stage (`bamber19_icesheets_project.py`)

The seeded `np.random.default_rng(rngseed)` generator is modelled as a
stream `g : Nat → ℚ` of unit uniform draws, consumed left to right in
program order: `pickScenario` consumes one draw per forcing member
(`rng.random(iSAT.size)`), after which `rng.choice` consumes one draw
per requested sample index. -/

/-- The climate data file's surface-temperature group for the requested
scenario: a years axis and a (year × member) temperature matrix. -/
structure ClimateData where
  sat_years : List ℤ
  sat : List (List ℚ)

/-- `np.flatnonzero(years == y)[0]`: index of the first occurrence. -/
def flatnonzeroFirst (years : List ℤ) (y : ℤ) : Nat :=
  years.findIdx (fun z => z == y)

/-- The reference mean of `GetSATData`:
`np.mean(sat_ssp[refyear_start_idx:refyear_end_idx, :], axis=0)`.  Note
the slice end is the index of `refyear_end` itself (the `+ 1` in the
source is commented out), so the `refyear_end` row is excluded. -/
def SATaveOf (cd : ClimateData) (refyear_start refyear_end : ℤ) : List ℚ :=
  colMean (sliceL cd.sat (flatnonzeroFirst cd.sat_years refyear_start)
    (flatnonzeroFirst cd.sat_years refyear_end))

/-- `GetSATData(climate_data_file, scenario, 1850, 1900, 1900, 2300)`:
normalized surface air temperature rows (`sat - SATave`) for the trimmed
year range, together with the `Time` label axis
`np.arange(year_start, year_end + 1)`. -/
def GetSATData (cd : ClimateData)
    (refyear_start refyear_end year_start year_end : ℤ) :
    List (List ℚ) × List ℤ :=
  let year_start_idx := flatnonzeroFirst cd.sat_years year_start
  let year_end_idx := flatnonzeroFirst cd.sat_years year_end + 1
  let Time := arangeL year_start (year_end + 1)
  let SATave := SATaveOf cd refyear_start refyear_end
  let SAT := (sliceL cd.sat year_start_idx year_end_idx).map
    (fun row => List.zipWith (· - ·) row SATave)
  (SAT, Time)

/-- The integrated forcing `iSAT` of `pickScenario`: `np.where` selects
the positions of `Time` in `[2000, 2100)`, `SAT[x2]` takes the rows of
the normalized series at those positions, and `SAT2.sum(axis=0)` sums
them per member. -/
def iSATof (cd : ClimateData) : List ℚ :=
  let SATTime := GetSATData cd 1850 1900 1900 2300
  let x2 := (List.range SATTime.2.length).filter
    (fun k => decide (2000 ≤ SATTime.2.getD k 0 ∧ SATTime.2.getD k 0 < 2100))
  colSum (x2.map (fun k => SATTime.1.getD k []))

/-- The per-member probability-of-high weight of `pickScenario`:
`np.minimum(1, np.maximum(0, (iSAT - 142.5) / (242.5 - 142.5)))`. -/
def scenarioWeight (iSAT : ℚ) : ℚ :=
  min 1 (max 0 ((iSAT - 142.5) / (242.5 - 142.5)))

/-- `pickScenario(climate_data_file, scenario, rng)`: draw one unit
uniform per member (`rng.random(iSAT.size)`, stream positions `0..n-1`)
and mark the member high iff the draw is below its weight. -/
def pickScenario (g : Nat → ℚ) (cd : ClimateData) : List Bool :=
  (List.range (iSATof cd).length).map
    (fun j => decide (g j < scenarioWeight ((iSATof cd).getD j 0)))

/-- `rng.choice(M, size=n, replace=True)` consuming the stream positions
`off`, `off+1`, …: each unit draw is scaled to an index below `M`. -/
def choiceReplace (g : Nat → ℚ) (off M n : Nat) : List Nat :=
  (List.range n).map (fun i => (Rat.floor (g (off + i) * M)).toNat % M)

/-- Output record of the projection stage (the fields of the
`icesheets_output` dict the later stages read). -/
structure ProjOut where
  eais_samps : List (List ℚ)
  wais_samps : List (List ℚ)
  ais_samps : List (List ℚ)
  gis_samps : List (List ℚ)
  years : List ℤ
  baseyear : ℤ
  deriving DecidableEq

/-- `bamber19_project_icesheets_temperaturedriven`: pick the high/low
mask with `pickScenario`, draw `nsamps = useHigh.size` indices from the
low ensemble's member axis, gather all four sheets from the low arrays
at those indices (fancy indexing: fresh copies), then overwrite the
mask-true rows with the high-array rows at the same drawn indices.  The
second component is `preprocess_output` as it stands after the call:
unchanged, because the gathers copy and the boolean-mask assignments
mutate only those copies. -/
def bamber19_project_icesheets_temperaturedriven (g : Nat → ℚ)
    (cd : ClimateData) (pre : PreprocessTD) : ProjOut × PreprocessTD :=
  let useHigh := pickScenario g cd
  let nsamps := useHigh.length
  let sample_inds := choiceReplace g (iSATof cd).length
    pre.ais_sampsL.length nsamps
  let mix := fun (hi lo : List (List ℚ)) =>
    boolScatter (fancyGather lo sample_inds) useHigh
      (fancyGather hi (boolGather sample_inds useHigh))
  (⟨mix pre.eais_sampsH pre.eais_sampsL,
    mix pre.wais_sampsH pre.wais_sampsL,
    mix pre.ais_sampsH pre.ais_sampsL,
    mix pre.gis_sampsH pre.gis_sampsL,
    pre.targyears, pre.baseyear⟩, pre)

/-- `bamber19_project_icesheets` (single-scenario mode): draw `nsamps`
indices from the member axis of `ais_samps` and gather all four sheets
at those indices. -/
def bamber19_project_icesheets (nsamps : Nat) (g : Nat → ℚ)
    (pre : PreprocessSingle) : ProjOut :=
  let sample_inds := choiceReplace g 0 pre.ais_samps.length nsamps
  ⟨fancyGather pre.eais_samps sample_inds,
   fancyGather pre.wais_samps sample_inds,
   fancyGather pre.ais_samps sample_inds,
   fancyGather pre.gis_samps sample_inds,
   pre.targyears, pre.baseyear⟩

/-! ### Postprocess stage (`bamber19_icesheets_postprocess.py`) -/

/-- The four local sample cubes the postprocess stage writes. -/
structure LocalOut where
  gissl : List (List (List ℚ))
  waissl : List (List (List ℚ))
  eaissl : List (List (List ℚ))
  aissl : List (List (List ℚ))
  deriving DecidableEq

/-- `np.multiply.outer(samps, fp)`: the (sample × year × location) outer
product of a global cube and a fingerprint vector. -/
def outerMul (samps : List (List ℚ)) (fp : List ℚ) :
    List (List (List ℚ)) :=
  samps.map (fun row => row.map (fun v => fp.map (fun f => v * f)))

/-- `bamber19_postprocess_icesheets`: apply each fingerprint to its
global cube with an outer product and add the east and west Antarctic
local cubes for the AIS total. -/
def bamber19_postprocess_icesheets (eais_samps wais_samps gis_samps :
    List (List ℚ)) (eaisfp waisfp gisfp : List ℚ) : LocalOut :=
  let gissl := outerMul gis_samps gisfp
  let waissl := outerMul wais_samps waisfp
  let eaissl := outerMul eais_samps eaisfp
  let aissl := cubeAdd waissl eaissl
  ⟨gissl, waissl, eaissl, aissl⟩

/-! ### Fixtures and derived definitions -/

/-- The index vector the temperature-driven resampler draws: one batch of
`useHigh.size` indices below the low-scenario member count, consumed from
the stream right after the selector's draws. -/
def tdSampleInds (g : Nat → ℚ) (cd : ClimateData) (pre : PreprocessTD) :
    List Nat :=
  choiceReplace g (iSATof cd).length pre.ais_sampsL.length
    (pickScenario g cd).length

/-- Tiny two-core `.mat` fixture: one sample, variables 18/19/20 carry
one-year GIS/WAIS/EAIS trajectories. -/
def matW2 : MatFile :=
  ⟨⟨[2010], [[[], [], [], [], [], [], [], [], [], [], [], [], [], [], [], [],
    [], [], [1], [2], [3]]]⟩,
   ⟨[2010], [[[], [], [], [], [], [], [], [], [], [], [], [], [], [], [], [],
    [], [], [4], [5], [6]]]⟩⟩

/-- The single-scenario preprocess output of `matW2` for rcp85. -/
def preW2 : PreprocessSingle := ⟨[[3]], [[2]], [[5]], [[1]], [2010], 2000⟩

/-- One-sample core-table fixture: variables 18/19/20 hold the one-year
trajectories [3], [4], [5] for the raw year 2010. -/
def matC9 : MatCore :=
  ⟨[2010], [[[], [], [], [], [], [], [], [], [], [], [], [], [], [], [], [],
    [], [], [3], [4], [5]]]⟩

/-- Two-year core-table fixture with full-length filler rows. -/
def matC4 : MatCore :=
  ⟨[2010, 2020],
   [[[0, 0], [0, 0], [0, 0], [0, 0], [0, 0], [0, 0], [0, 0], [0, 0], [0, 0],
     [0, 0], [0, 0], [0, 0], [0, 0], [0, 0], [0, 0], [0, 0], [0, 0], [0, 0],
     [1, 2], [3, 4], [5, 6]]]⟩

/-- The reference normalization as the spec words it: the per-member mean
of the temperature rows over the window `1850 ≤ y ≤ 1900`, with the 1900
endpoint included ("mean over the historical reference window
1850–1900"). -/
def refWindowMeanSpec (cd : ClimateData) : List ℚ :=
  colMean (((cd.sat_years.zip cd.sat).filter
    (fun p => decide (1850 ≤ p.1 ∧ p.1 ≤ 1900))).map (fun p => p.2))

/-! ### Generic access lemmas -/

lemma getD_map_lt {α β : Type} (l : List α) (f : α → β) (i : Nat) (d : β)
    (d' : α) (h : i < l.length) : (l.map f).getD i d = f (l.getD i d') := by
  induction l generalizing i with
  | nil => simp at h
  | cons x xs ih =>
    cases i with
    | zero => rfl
    | succ n => simpa using ih n (by simpa using h)

lemma getD_zipWith {α β γ : Type} (f : α → β → γ) (a : List α) (b : List β)
    (da : α) (db : β) (dc : γ) (hf : f da db = dc) (h : a.length = b.length)
    (k : Nat) : (List.zipWith f a b).getD k dc = f (a.getD k da) (b.getD k db) := by
  induction a generalizing b k with
  | nil =>
    cases b with
    | nil => simp [hf.symm]
    | cons y ys => simp at h
  | cons x xs ih =>
    cases b with
    | nil => simp at h
    | cons y ys =>
      cases k with
      | zero => rfl
      | succ n => simpa using ih ys (by simpa using h) n

lemma zipWith_self {α β : Type} (f : α → α → β) (l : List α) :
    List.zipWith f l l = l.map (fun x => f x x) := by
  induction l with
  | nil => rfl
  | cons x xs ih => simp [ih]

/-! ### C5: the scenario weight map -/

/-- C5.  The probability-of-high weight is the clamped linear map of
integrated forcing anchored at 142.5 and 242.5: it is non-decreasing,
exactly 0 at or below 142.5 and exactly 1 at or above 242.5. -/
theorem claim_C5 :
    (∀ x y : ℚ, x ≤ y → scenarioWeight x ≤ scenarioWeight y) ∧
    (∀ x : ℚ, x ≤ 142.5 → scenarioWeight x = 0) ∧
    (∀ x : ℚ, 242.5 ≤ x → scenarioWeight x = 1) := by
  refine ⟨fun x y hxy => ?_, fun x hx => ?_, fun x hx => ?_⟩
  · unfold scenarioWeight
    refine min_le_min le_rfl (max_le_max le_rfl ?_)
    rw [div_le_div_iff_of_pos_right (by norm_num : (0:ℚ) < 242.5 - 142.5)]
    linarith
  · unfold scenarioWeight
    have ht : (x - 142.5) / (242.5 - 142.5) ≤ 0 := by
      apply div_nonpos_of_nonpos_of_nonneg
      · linarith
      · norm_num
    rw [max_eq_left ht, min_eq_right zero_le_one]
  · unfold scenarioWeight
    have ht : 1 ≤ (x - 142.5) / (242.5 - 142.5) := by
      rw [le_div_iff₀ (by norm_num : (0:ℚ) < 242.5 - 142.5)]
      linarith
    rw [max_eq_right (le_trans zero_le_one ht), min_eq_left ht]

/-- Witness for C5 at concrete integrated-forcing values. -/
theorem claim_C5_witness :
    scenarioWeight 100 = 0 ∧ scenarioWeight 300 = 1 ∧
    scenarioWeight 100 ≤ scenarioWeight 300 :=
  ⟨claim_C5.2.1 100 (by norm_num), claim_C5.2.2 300 (by norm_num),
   claim_C5.1 100 300 (by norm_num)⟩

/-! ### C10: the temperature-driven resampler leaves its input arrays alone -/

/-- C10.  The temperature-driven projection returns the preprocess
output unchanged: integer fancy indexing gathers copies of the rows, and
the in-place high/low mixing writes only into those copies. -/
theorem claim_C10 (g : Nat → ℚ) (cd : ClimateData) (pre : PreprocessTD) :
    (bamber19_project_icesheets_temperaturedriven g cd pre).2 = pre := rfl

/-! ### C6: fingerprint localization is an outer product -/

lemma getD3_outerMul (G : List (List ℚ)) (F : List ℚ) (s y l : Nat)
    (hs : s < G.length) (hy : y < (G.getD s []).length) (hl : l < F.length) :
    getD3 (outerMul G F) s y l = (G.getD s []).getD y 0 * F.getD l 0 := by
  unfold getD3 outerMul
  rw [getD_map_lt G _ s [] [] hs, getD_map_lt _ _ y [] 0 hy,
    getD_map_lt F _ l 0 0 hl]

/-- C6.  Each localized cube of the postprocess stage is the outer
product of the global (sample × year) cube and the per-location
fingerprint vector: `local[s, y, l] = global[s, y] * fingerprint[l]`. -/
theorem claim_C6 (eais_samps wais_samps gis_samps : List (List ℚ))
    (eaisfp waisfp gisfp : List ℚ) (s y l : Nat) :
    (s < gis_samps.length → y < (gis_samps.getD s []).length →
      l < gisfp.length →
      getD3 (bamber19_postprocess_icesheets eais_samps wais_samps gis_samps
        eaisfp waisfp gisfp).gissl s y l
        = (gis_samps.getD s []).getD y 0 * gisfp.getD l 0) ∧
    (s < wais_samps.length → y < (wais_samps.getD s []).length →
      l < waisfp.length →
      getD3 (bamber19_postprocess_icesheets eais_samps wais_samps gis_samps
        eaisfp waisfp gisfp).waissl s y l
        = (wais_samps.getD s []).getD y 0 * waisfp.getD l 0) ∧
    (s < eais_samps.length → y < (eais_samps.getD s []).length →
      l < eaisfp.length →
      getD3 (bamber19_postprocess_icesheets eais_samps wais_samps gis_samps
        eaisfp waisfp gisfp).eaissl s y l
        = (eais_samps.getD s []).getD y 0 * eaisfp.getD l 0) :=
  ⟨fun hs hy hl => getD3_outerMul _ _ _ _ _ hs hy hl,
   fun hs hy hl => getD3_outerMul _ _ _ _ _ hs hy hl,
   fun hs hy hl => getD3_outerMul _ _ _ _ _ hs hy hl⟩

/-- Witness for C6 on the spec's fixture: 2 samples, 2 years and the
fingerprint `[1, 0, 2]` over 3 locations. -/
theorem claim_C6_witness :
    getD3 (bamber19_postprocess_icesheets [[5, 6], [7, 8]] [[1, 2], [3, 4]]
      [[9, 10], [11, 12]] [1, 0, 2] [1, 0, 2] [1, 0, 2]).waissl 1 0 2
      = ([[(1:ℚ), 2], [3, 4]].getD 1 []).getD 0 0 * ([(1:ℚ), 0, 2]).getD 2 0 :=
  (claim_C6 [[5, 6], [7, 8]] [[1, 2], [3, 4]] [[9, 10], [11, 12]]
    [1, 0, 2] [1, 0, 2] [1, 0, 2] 1 0 2).2.1 (by decide) (by decide) (by decide)

/-! ### The high/low mixing step -/

/-- Gathering from the low ensemble and then boolean-scatter-assigning
the high-ensemble rows gathered at the mask-compressed indices is the
pointwise select: position `i` holds `H[inds[i]]` when `mask[i]` is true
and `L[inds[i]]` otherwise. -/
lemma boolScatter_fancyGather (H L : List (List ℚ)) (inds : List Nat)
    (mask : List Bool) (h : inds.length = mask.length) :
    boolScatter (fancyGather L inds) mask
      (fancyGather H (boolGather inds mask))
      = (inds.zip mask).map
          (fun p => if p.2 then H.getD p.1 [] else L.getD p.1 []) := by
  induction inds generalizing mask with
  | nil =>
    cases mask with
    | nil => rfl
    | cons b bs => simp at h
  | cons i is ih =>
    cases mask with
    | nil => simp at h
    | cons b bs =>
      have h' : is.length = bs.length := by simpa using h
      cases b with
      | false =>
        show boolScatter (L.getD i [] :: fancyGather L is) (false :: bs)
          (fancyGather H (boolGather is bs)) = _
        simp only [boolScatter, if_neg Bool.false_ne_true, List.zip_cons_cons,
          List.map_cons, if_neg Bool.false_ne_true]
        exact congrArg _ (ih bs h')
      | true =>
        show boolScatter (L.getD i [] :: fancyGather L is) (true :: bs)
          (H.getD i [] :: fancyGather H (boolGather is bs)) = _
        simp only [boolScatter, if_pos rfl, List.zip_cons_cons,
          List.map_cons, if_pos rfl]
        exact congrArg _ (ih bs h')

lemma tdSampleInds_length (g : Nat → ℚ) (cd : ClimateData)
    (pre : PreprocessTD) :
    (tdSampleInds g cd pre).length = (pickScenario g cd).length := by
  simp [tdSampleInds, choiceReplace]

/-- C1.  In temperature-driven mode the output has one sample per entry
of the `pickScenario` mask, a single index vector is drawn from the
low-scenario member axis, and every output row is the high-ensemble row
at the drawn index where the mask is true and the low-ensemble row at
the same drawn index where it is false. -/
theorem claim_C1 (g : Nat → ℚ) (cd : ClimateData) (pre : PreprocessTD) :
    ((bamber19_project_icesheets_temperaturedriven g cd pre).1.eais_samps.length
      = (pickScenario g cd).length) ∧
    ((bamber19_project_icesheets_temperaturedriven g cd pre).1.eais_samps
      = ((tdSampleInds g cd pre).zip (pickScenario g cd)).map
          (fun p => if p.2 then pre.eais_sampsH.getD p.1 []
            else pre.eais_sampsL.getD p.1 [])) ∧
    ((bamber19_project_icesheets_temperaturedriven g cd pre).1.wais_samps
      = ((tdSampleInds g cd pre).zip (pickScenario g cd)).map
          (fun p => if p.2 then pre.wais_sampsH.getD p.1 []
            else pre.wais_sampsL.getD p.1 [])) ∧
    ((bamber19_project_icesheets_temperaturedriven g cd pre).1.ais_samps
      = ((tdSampleInds g cd pre).zip (pickScenario g cd)).map
          (fun p => if p.2 then pre.ais_sampsH.getD p.1 []
            else pre.ais_sampsL.getD p.1 [])) ∧
    ((bamber19_project_icesheets_temperaturedriven g cd pre).1.gis_samps
      = ((tdSampleInds g cd pre).zip (pickScenario g cd)).map
          (fun p => if p.2 then pre.gis_sampsH.getD p.1 []
            else pre.gis_sampsL.getD p.1 [])) := by
  have hlen := tdSampleInds_length g cd pre
  have he := boolScatter_fancyGather pre.eais_sampsH pre.eais_sampsL
    (tdSampleInds g cd pre) (pickScenario g cd) hlen
  have hw := boolScatter_fancyGather pre.wais_sampsH pre.wais_sampsL
    (tdSampleInds g cd pre) (pickScenario g cd) hlen
  have ha := boolScatter_fancyGather pre.ais_sampsH pre.ais_sampsL
    (tdSampleInds g cd pre) (pickScenario g cd) hlen
  have hg := boolScatter_fancyGather pre.gis_sampsH pre.gis_sampsL
    (tdSampleInds g cd pre) (pickScenario g cd) hlen
  simp only [tdSampleInds] at he hw ha hg hlen
  simp only [bamber19_project_icesheets_temperaturedriven, tdSampleInds]
  rw [he, hw, ha, hg]
  refine ⟨?_, rfl, rfl, rfl, rfl⟩
  simp [List.length_zip, hlen]

/-! ### C7: determinism and the fixed consumption order of the generator -/

lemma pickScenario_length (g : Nat → ℚ) (cd : ClimateData) :
    (pickScenario g cd).length = (iSATof cd).length := by
  simp [pickScenario]

/-- C7.  The projection output is a function of the seeded stream's
first `2 * n` draws alone (`n` forcing members): the selector consumes
draws `0..n-1`, the resampler's index draw consumes `n..2n-1`, in that
order.  Two generators that agree there — in particular two runs from
the same seed — produce identical global sample cubes. -/
theorem claim_C7 (cd : ClimateData) (pre : PreprocessTD) (g₁ g₂ : Nat → ℚ)
    (h : ∀ k, k < 2 * (iSATof cd).length → g₁ k = g₂ k) :
    bamber19_project_icesheets_temperaturedriven g₁ cd pre
      = bamber19_project_icesheets_temperaturedriven g₂ cd pre := by
  have hpick : pickScenario g₁ cd = pickScenario g₂ cd := by
    unfold pickScenario
    apply List.map_congr_left
    intro j hj
    have hj' : j < (iSATof cd).length := List.mem_range.mp hj
    rw [h j (by omega)]
  have hchoice : choiceReplace g₁ (iSATof cd).length pre.ais_sampsL.length
      (pickScenario g₂ cd).length
      = choiceReplace g₂ (iSATof cd).length pre.ais_sampsL.length
        (pickScenario g₂ cd).length := by
    unfold choiceReplace
    apply List.map_congr_left
    intro i hi
    have hi' : i < (pickScenario g₂ cd).length := List.mem_range.mp hi
    have hn := pickScenario_length g₂ cd
    rw [h ((iSATof cd).length + i) (by omega)]
  simp only [bamber19_project_icesheets_temperaturedriven]
  rw [hpick, hchoice]

/-- Witness for C7: two identical concrete streams through a concrete
run yield identical outputs. -/
theorem claim_C7_witness :
    bamber19_project_icesheets_temperaturedriven (fun _ => 1/2)
      ⟨[], []⟩ ⟨[], [], [], [], [], [], [], [], [], 2000⟩
      = bamber19_project_icesheets_temperaturedriven (fun _ => 1/2)
        ⟨[], []⟩ ⟨[], [], [], [], [], [], [], [], [], 2000⟩ :=
  claim_C7 ⟨[], []⟩ ⟨[], [], [], [], [], [], [], [], [], 2000⟩
    (fun _ => 1/2) (fun _ => 1/2) (fun _ _ => rfl)

/-! ### C2: AIS = EAIS + WAIS everywhere -/

lemma getD_matAdd (a b : List (List ℚ)) (h : a.length = b.length) (k : Nat) :
    (matAdd a b).getD k [] = List.zipWith (· + ·) (a.getD k []) (b.getD k []) :=
  getD_zipWith _ a b [] [] [] rfl h k

lemma fancyGather_matAdd (a b : List (List ℚ)) (h : a.length = b.length)
    (inds : List Nat) :
    fancyGather (matAdd a b) inds
      = matAdd (fancyGather a inds) (fancyGather b inds) := by
  unfold fancyGather matAdd
  rw [List.zipWith_map, zipWith_self]
  exact List.map_congr_left (fun i _ => getD_matAdd a b h i)

lemma matAdd_mix (eH wH eL wL : List (List ℚ)) (inds : List Nat)
    (mask : List Bool) (hlen : inds.length = mask.length)
    (hH : eH.length = wH.length) (hL : eL.length = wL.length) :
    boolScatter (fancyGather (matAdd eL wL) inds) mask
      (fancyGather (matAdd eH wH) (boolGather inds mask))
      = matAdd
        (boolScatter (fancyGather eL inds) mask
          (fancyGather eH (boolGather inds mask)))
        (boolScatter (fancyGather wL inds) mask
          (fancyGather wH (boolGather inds mask))) := by
  rw [boolScatter_fancyGather _ _ _ _ hlen, boolScatter_fancyGather _ _ _ _ hlen,
    boolScatter_fancyGather _ _ _ _ hlen]
  unfold matAdd
  rw [List.zipWith_map, zipWith_self]
  refine List.map_congr_left (fun p _ => ?_)
  rcases p with ⟨i, m⟩
  cases m with
  | false => simpa using getD_matAdd eL wL hL i
  | true => simpa using getD_matAdd eH wH hH i

lemma ExtractSamples_eais_length (mat : MatCore) (targ : List ℤ) (b : ℤ) :
    (ExtractSamples mat targ b).eais.length = mat.samps.length := by
  simp [ExtractSamples, sheetOf]

lemma ExtractSamples_wais_length (mat : MatCore) (targ : List ℤ) (b : ℤ) :
    (ExtractSamples mat targ b).wais.length = mat.samps.length := by
  simp [ExtractSamples, sheetOf]

lemma getD_outerMul (G : List (List ℚ)) (F : List ℚ) (s : Nat) :
    (outerMul G F).getD s []
      = (G.getD s []).map (fun v => F.map (fun f => v * f)) := by
  induction G generalizing s with
  | nil => simp [outerMul]
  | cons r rs ih =>
    cases s with
    | zero => rfl
    | succ n => simpa [outerMul] using ih n

lemma getD3_cubeAdd_outer (w e : List (List ℚ)) (wfp efp : List ℚ)
    (hlen : w.length = e.length)
    (hrow : ∀ i, (w.getD i []).length = (e.getD i []).length)
    (hfp : wfp.length = efp.length) (s y l : Nat) :
    getD3 (cubeAdd (outerMul w wfp) (outerMul e efp)) s y l
      = getD3 (outerMul w wfp) s y l + getD3 (outerMul e efp) s y l := by
  have hA : ((outerMul w wfp).getD s []).length
      = ((outerMul e efp).getD s []).length := by
    rw [getD_outerMul, getD_outerMul, List.length_map, List.length_map]
    exact hrow s
  have hB : (((outerMul w wfp).getD s []).getD y []).length
      = (((outerMul e efp).getD s []).getD y []).length := by
    rw [getD_outerMul, getD_outerMul]
    by_cases hy : y < (w.getD s []).length
    · rw [getD_map_lt _ _ y [] 0 hy, getD_map_lt _ _ y [] 0 (by rw [← hrow s]; exact hy)]
      rw [List.length_map, List.length_map]
      exact hfp
    · push_neg at hy
      rw [List.getD_eq_default _ [] (by rw [List.length_map]; exact hy),
        List.getD_eq_default _ [] (by rw [List.length_map, ← hrow s]; exact hy)]
  unfold getD3 cubeAdd
  rw [getD_zipWith matAdd _ _ [] [] [] rfl (by simp [outerMul, hlen]) s,
    getD_matAdd _ _ hA y,
    getD_zipWith (· + ·) _ _ 0 0 0 (by norm_num) hB l]

/-- C2.  AIS is always the elementwise sum of EAIS and WAIS: in the
temperature-driven projection from the preprocess output, in the
single-scenario projection from the preprocess output, and in the local
sample cube produced by the postprocess stage. -/
theorem claim_C2 (ps pe st b : ℤ) (mat : MatFile) (g : Nat → ℚ)
    (cd : ClimateData) (nsamps : Nat) (scenario : String)
    (preS : PreprocessSingle)
    (hS : bamber19_preprocess_icesheets_single ps pe st b scenario mat
      = some preS)
    (w e gsheet : List (List ℚ)) (wfp efp gfp : List ℚ)
    (hlen : w.length = e.length)
    (hrow : ∀ i, (w.getD i []).length = (e.getD i []).length)
    (hfp : wfp.length = efp.length) (s y l : Nat) :
    ((bamber19_project_icesheets_temperaturedriven g cd
        (bamber19_preprocess_icesheets ps pe st b mat)).1.ais_samps
      = matAdd
        (bamber19_project_icesheets_temperaturedriven g cd
          (bamber19_preprocess_icesheets ps pe st b mat)).1.eais_samps
        (bamber19_project_icesheets_temperaturedriven g cd
          (bamber19_preprocess_icesheets ps pe st b mat)).1.wais_samps) ∧
    ((bamber19_project_icesheets nsamps g preS).ais_samps
      = matAdd (bamber19_project_icesheets nsamps g preS).eais_samps
          (bamber19_project_icesheets nsamps g preS).wais_samps) ∧
    (getD3 (bamber19_postprocess_icesheets e w gsheet efp wfp gfp).aissl s y l
      = getD3 (bamber19_postprocess_icesheets e w gsheet efp wfp gfp).waissl s y l
        + getD3 (bamber19_postprocess_icesheets e w gsheet efp wfp gfp).eaissl
            s y l) := by
  refine ⟨?_, ?_, ?_⟩
  · simp only [bamber19_project_icesheets_temperaturedriven,
      bamber19_preprocess_icesheets]
    apply matAdd_mix
    · simp [choiceReplace, pickScenario]
    · rw [ExtractSamples_eais_length, ExtractSamples_wais_length]
    · rw [ExtractSamples_eais_length, ExtractSamples_wais_length]
  · have hfields : preS.ais_samps = matAdd preS.eais_samps preS.wais_samps ∧
        preS.eais_samps.length = preS.wais_samps.length := by
      simp only [bamber19_preprocess_icesheets_single, Option.bind_eq_some,
        Option.map_eq_some'] at hS
      obtain ⟨key, hkey, core, hcore, hpre⟩ := hS
      subst hpre
      exact ⟨rfl, by rw [ExtractSamples_eais_length, ExtractSamples_wais_length]⟩
    simp only [bamber19_project_icesheets]
    rw [hfields.1, fancyGather_matAdd _ _ hfields.2]
  · exact getD3_cubeAdd_outer w e wfp efp hlen hrow hfp s y l

/-- Witness for C2 on concrete fixtures in all three conjuncts. -/
theorem claim_C2_witness :
    ((bamber19_project_icesheets_temperaturedriven (fun _ => 1/2) ⟨[], []⟩
        (bamber19_preprocess_icesheets 2010 2010 10 2000 matW2)).1.ais_samps
      = matAdd
        (bamber19_project_icesheets_temperaturedriven (fun _ => 1/2) ⟨[], []⟩
          (bamber19_preprocess_icesheets 2010 2010 10 2000 matW2)).1.eais_samps
        (bamber19_project_icesheets_temperaturedriven (fun _ => 1/2) ⟨[], []⟩
          (bamber19_preprocess_icesheets 2010 2010 10 2000 matW2)).1.wais_samps) ∧
    ((bamber19_project_icesheets 2 (fun _ => 1/2) preW2).ais_samps
      = matAdd (bamber19_project_icesheets 2 (fun _ => 1/2) preW2).eais_samps
          (bamber19_project_icesheets 2 (fun _ => 1/2) preW2).wais_samps) ∧
    (getD3 (bamber19_postprocess_icesheets [[2]] [[1]] [[3]] [2] [2] [2]).aissl
        0 0 0
      = getD3 (bamber19_postprocess_icesheets [[2]] [[1]] [[3]] [2] [2] [2]).waissl
          0 0 0
        + getD3 (bamber19_postprocess_icesheets [[2]] [[1]] [[3]] [2] [2] [2]).eaissl
            0 0 0) :=
  claim_C2 2010 2010 10 2000 matW2 (fun _ => 1/2) ⟨[], []⟩ 2 "rcp85" preW2
    (by norm_num [bamber19_preprocess_icesheets_single, scenario_map, matCoreOf,
      arangeStep, ExtractSamples, sheetOf, isinMask, FindRefVals, interpLeft,
      matAdd, matW2, preW2, boolGather, List.getD, List.range_succ,
      List.range_zero, List.flatMap_cons, List.flatMap_nil])
    [[1]] [[2]] [[3]] [2] [2] [2] rfl (fun i => by cases i <;> rfl) rfl 0 0 0

/-! ### C3: centering at the baseyear -/

lemma interpLeft_nil (x left : ℚ) : interpLeft x left [] = left := rfl

lemma interpLeft_single (x left : ℚ) (p : ℚ × ℚ) :
    interpLeft x left [p] = if x < p.1 then left else p.2 := rfl

lemma interpLeft_cons₂ (x left : ℚ) (p q : ℚ × ℚ) (rest : List (ℚ × ℚ)) :
    interpLeft x left (p :: q :: rest)
      = if x < p.1 then left
        else if x < q.1 then p.2 + (q.2 - p.2) * (x - p.1) / (q.1 - p.1)
        else interpLeft x left (q :: rest) := rfl

/-- Shifting every breakpoint value down by `r` shifts the interpolated
value down by `r`, as long as the query point is at or past the first
breakpoint (so the `left` default is never reached). -/
lemma interpLeft_shift (x left₁ left₂ r : ℚ) :
    ∀ (rest : List (ℚ × ℚ)) (p0 : ℚ × ℚ), p0.1 ≤ x →
    interpLeft x left₁ ((p0 :: rest).map (fun p => (p.1, p.2 - r)))
      = interpLeft x left₂ (p0 :: rest) - r
  | [], p0, h => by
    simp [interpLeft_single, not_lt.mpr h]
  | q :: rest, p0, h => by
    by_cases hq : x < q.1
    · simp only [List.map_cons, interpLeft_cons₂, if_neg (not_lt.mpr h),
        if_pos hq]
      ring
    · have hq' : q.1 ≤ x := not_lt.mp hq
      simp only [List.map_cons, interpLeft_cons₂, if_neg (not_lt.mpr h),
        if_neg hq]
      have := interpLeft_shift x left₁ left₂ r rest q hq'
      simpa using this

/-- C3 (amended).  The reference value interpolates the anchored
trajectory at the baseyear and is 0 for any baseyear below 2000; the
centered trajectory re-interpolates to 0 at the baseyear whenever the
baseyear is at most 2000 or at least the first raw year.  (For a
baseyear strictly between 2000 and the first raw year the anchored
re-interpolation need not vanish; see the counterexample.) -/
theorem claim_C3 (ts : List ℚ) (years : List ℤ) (b : ℤ)
    (hlen : ts.length = years.length)
    (h2000 : ∀ y ∈ years, (2000 : ℤ) < y)
    (hb : b ≤ 2000 ∨ ∃ y0, years.head? = some y0 ∧ y0 ≤ b) :
    (b < 2000 → FindRefVals ts years b = 0) ∧
    FindRefVals (ts.map (fun v => v - FindRefVals ts years b)) years b = 0 := by
  have hclamp : ∀ (ts' : List ℚ), b < 2000 → FindRefVals ts' years b = 0 := by
    intro ts' hlt
    have hx : (b : ℚ) < 2000 := by exact_mod_cast hlt
    unfold FindRefVals
    cases (years.map (fun y => (Int.cast y : ℚ))).zip ts' with
    | nil => simp [interpLeft_single, hx]
    | cons z zs => simp [interpLeft_cons₂, hx]
  refine ⟨hclamp ts, ?_⟩
  cases years with
  | nil =>
    cases ts with
    | nil =>
      unfold FindRefVals
      simp [interpLeft_single]
    | cons t ts' => simp at hlen
  | cons y0 ys =>
    cases ts with
    | nil => simp at hlen
    | cons t0 ts' =>
      have hy0 : (2000 : ℤ) < y0 := h2000 y0 (List.mem_cons_self y0 ys)
      have hy0q : (2000 : ℚ) < (y0 : ℚ) := by exact_mod_cast hy0
      set r := FindRefVals (t0 :: ts') (y0 :: ys) b with hrdef
      have hmapcons : (List.map (fun y => (Int.cast y : ℚ)) (y0 :: ys))
          = (Int.cast y0 : ℚ) :: List.map (fun y => (Int.cast y : ℚ)) ys := rfl
      rcases hb with hble | ⟨y0', hy0', hy0b⟩
      · rcases lt_or_eq_of_le hble with hlt | heq
        · exact hclamp _ hlt
        · have hxq : (b : ℚ) = 2000 := by exact_mod_cast heq
          conv_lhs => rw [FindRefVals]
          rw [hmapcons, List.map_cons, List.zip_cons_cons, interpLeft_cons₂,
            hxq, if_neg (lt_irrefl (2000 : ℚ)), if_pos hy0q]
          norm_num
      · have hy0eq : y0' = y0 := by
          simp only [List.head?_cons, Option.some.injEq] at hy0'
          exact hy0'.symm
        rw [hy0eq] at hy0b
        have hxb : (y0 : ℚ) ≤ (b : ℚ) := by exact_mod_cast hy0b
        have hx2000 : ¬((b : ℚ) < 2000) :=
          not_lt.mpr (le_trans (le_of_lt hy0q) hxb)
        have hxy0 : ¬((b : ℚ) < (y0 : ℚ)) := not_lt.mpr hxb
        have hshift : (List.map (fun y => (Int.cast y : ℚ)) ys).zip
              (ts'.map (fun v => v - r))
            = ((List.map (fun y => (Int.cast y : ℚ)) ys).zip ts').map
                (fun p => (p.1, p.2 - r)) := by
          rw [List.zip_map_right]
          exact List.map_congr_left (fun p _ => by cases p; rfl)
        have hr : interpLeft (b : ℚ) 0
            (((Int.cast y0 : ℚ), t0)
              :: (List.map (fun y => (Int.cast y : ℚ)) ys).zip ts')
            = r := by
          rw [hrdef]
          conv_rhs => rw [FindRefVals]
          rw [hmapcons, List.zip_cons_cons, interpLeft_cons₂,
            if_neg hx2000, if_neg hxy0]
        conv_lhs => rw [FindRefVals]
        rw [hmapcons, List.map_cons, List.zip_cons_cons, interpLeft_cons₂,
          if_neg hx2000, if_neg hxy0, hshift]
        have hmain := interpLeft_shift (b : ℚ) 0 0 r
          ((List.map (fun y => (Int.cast y : ℚ)) ys).zip ts')
          ((Int.cast y0 : ℚ), t0) hxb
        simp only [List.map_cons] at hmain
        rw [hmain, hr]
        ring

/-- Counterexample to C3 as stated: with the single raw year 2010, value
4 and baseyear 2005 (strictly between the synthetic anchor year 2000 and
the first raw year), the centered trajectory re-interpolates to 1, not
0, at the baseyear. -/
theorem claim_C3_counterexample :
    FindRefVals (([4] : List ℚ).map
        (fun v => v - FindRefVals [4] [2010] 2005)) [2010] 2005 ≠ 0 := by
  norm_num [FindRefVals, interpLeft]

/-- Witness for C3 at a baseyear equal to the first raw year. -/
theorem claim_C3_witness :
    ((2010 : ℤ) < 2000 → FindRefVals [4] [2010] 2010 = 0) ∧
    FindRefVals (([4] : List ℚ).map
        (fun v => v - FindRefVals [4] [2010] 2010)) [2010] 2010 = 0 :=
  claim_C3 [4] [2010] 2010 rfl (by decide)
    (Or.inr ⟨2010, rfl, le_refl 2010⟩)

/-- C9 fails on the code: extracting with baseyear 2005 leaves the loaded
core table centered in place (rows 18/19/20 become [3/2], [2], [5/2]), so
the raw ensemble table is NOT read-only. -/
theorem claim_C9 : (ExtractSamplesS matC9 [2010] 2005).2 ≠ matC9 := by
  intro h
  have hs := congrArg MatCore.samps h
  simp only [ExtractSamplesS, ExtractSamplesPostMat, matC9] at hs
  norm_num [List.mapIdx_cons, List.mapIdx_nil, FindRefVals, interpLeft] at hs

/-! ### C4: subsetting to the target years -/

lemma boolGather_map_filter {α : Type} (p : α → Bool) (l : List α) :
    boolGather l (l.map p) = l.filter p := by
  induction l with
  | nil => rfl
  | cons x xs ih =>
    by_cases hp : p x <;> simp [boolGather, List.filter_cons, hp, ih]

lemma boolGather_length {α β : Type} (r : List α) (ys : List β) (p : β → Bool)
    (h : r.length = ys.length) :
    (boolGather r (ys.map p)).length = (ys.filter p).length := by
  induction ys generalizing r with
  | nil =>
    cases r with
    | nil => rfl
    | cons a as => simp at h
  | cons y ys ih =>
    cases r with
    | nil => simp at h
    | cons a as =>
      have h' : as.length = ys.length := by simpa using h
      by_cases hp : p y <;>
        simp [boolGather, List.filter_cons, hp, ih as h']

/-- A strictly sorted list filtered by membership in a strictly sorted
subset gives back exactly that subset. -/
lemma filter_sorted_subset (l t : List ℤ) (hl : List.Sorted (· < ·) l)
    (ht : List.Sorted (· < ·) t) (hsub : ∀ x ∈ t, x ∈ l) :
    l.filter (fun y => decide (y ∈ t)) = t := by
  apply List.eq_of_perm_of_sorted ?_ (List.Sorted.filter _ hl) ht
  refine (List.perm_ext_iff_of_nodup ((List.Sorted.filter _ hl).nodup)
    ht.nodup).mpr (fun a => ?_)
  simp only [List.mem_filter, decide_eq_true_eq]
  exact ⟨fun ⟨_, h2⟩ => h2, fun h => ⟨hsub a h, h⟩⟩

lemma rows_length_after_subset (samps : List (List (List ℚ)))
    (years targ : List ℤ) (b : ℤ) (v : Nat)
    (hvars : ∀ s ∈ samps, 21 ≤ s.length) (hv : v < 21)
    (hrect : ∀ s ∈ samps, ∀ r ∈ s, r.length = years.length)
    (hfl : (years.filter (fun y => decide (y ∈ targ))).length = targ.length) :
    ∀ r ∈ (List.zipWith (fun ts rf => ts.map (fun x => x - rf))
        (sheetOf samps v)
        ((sheetOf samps v).map (fun ts => FindRefVals ts years b))).map
        (fun row => boolGather row (isinMask years targ)),
      r.length = targ.length := by
  intro r hr
  rw [List.mem_map] at hr
  obtain ⟨row, hrow, rfl⟩ := hr
  rw [List.zipWith_map_right, zipWith_self, List.mem_map] at hrow
  obtain ⟨ts, hts_mem, rfl⟩ := hrow
  rw [sheetOf, List.mem_map] at hts_mem
  obtain ⟨s, hs_mem, rfl⟩ := hts_mem
  have hvlt : v < s.length := lt_of_lt_of_le hv (hvars s hs_mem)
  have hts_in : s.getD v [] ∈ s := by
    rw [List.getD_eq_getElem s [] hvlt]
    exact List.getElem_mem hvlt
  have hlen_ts : (s.getD v []).length = years.length := hrect s hs_mem _ hts_in
  rw [isinMask, boolGather_length _ _ _ (by simpa using hlen_ts)]
  exact hfl

/-- C4 (amended).  The extractor does not fail on a missing target year:
it silently subsets columns to the raw years that are members of the
target list.  When the raw years and targets are strictly increasing and
every target year is present, the kept columns are exactly the requested
target years and every output row has exactly one column per target
year. -/
theorem claim_C4 (mat : MatCore) (targ : List ℤ) (b : ℤ)
    (hys : List.Sorted (· < ·) mat.years) (hts : List.Sorted (· < ·) targ)
    (hsub : ∀ t ∈ targ, t ∈ mat.years)
    (hvars : ∀ s ∈ mat.samps, 21 ≤ s.length)
    (hrect : ∀ s ∈ mat.samps, ∀ r ∈ s, r.length = mat.years.length) :
    boolGather mat.years (isinMask mat.years targ) = targ ∧
    (∀ r ∈ (ExtractSamplesS mat targ b).1.wais, r.length = targ.length) ∧
    (∀ r ∈ (ExtractSamplesS mat targ b).1.eais, r.length = targ.length) ∧
    (∀ r ∈ (ExtractSamplesS mat targ b).1.gis, r.length = targ.length) := by
  have hfilter : mat.years.filter (fun y => decide (y ∈ targ)) = targ :=
    filter_sorted_subset mat.years targ hys hts hsub
  have hfl : (mat.years.filter (fun y => decide (y ∈ targ))).length
      = targ.length := by rw [hfilter]
  have hmask : boolGather mat.years (isinMask mat.years targ) = targ := by
    rw [isinMask, boolGather_map_filter]
    exact hfilter
  refine ⟨hmask, ?_, ?_, ?_⟩
  · simpa only [ExtractSamplesS, ExtractSamples] using
      rows_length_after_subset mat.samps mat.years targ b 19 hvars
        (by omega) hrect hfl
  · simpa only [ExtractSamplesS, ExtractSamples] using
      rows_length_after_subset mat.samps mat.years targ b 20 hvars
        (by omega) hrect hfl
  · simpa only [ExtractSamplesS, ExtractSamples] using
      rows_length_after_subset mat.samps mat.years targ b 18 hvars
        (by omega) hrect hfl

/-- Counterexample to C4 as stated: requesting the years 2010 and 2030,
where 2030 is absent from the raw axis, does not fail — the extractor
returns one-column results (the intersection), not an error. -/
theorem claim_C4_counterexample :
    (ExtractSamplesS matC4 [2010, 2030] 2000).1 = ⟨[[3]], [[5]], [[1]]⟩ ∧
    ((ExtractSamplesS matC4 [2010, 2030] 2000).1.eais.getD 0 []).length
      ≠ ([2010, 2030] : List ℤ).length := by
  have hres : (ExtractSamplesS matC4 [2010, 2030] 2000).1
      = ⟨[[3]], [[5]], [[1]]⟩ := by
    norm_num [ExtractSamplesS, ExtractSamples, matC4, sheetOf, isinMask,
      FindRefVals, interpLeft, boolGather, List.getD]
  refine ⟨hres, ?_⟩
  rw [hres]
  decide

/-- Witness for C4 with both requested years present. -/
theorem claim_C4_witness :
    (boolGather matC4.years (isinMask matC4.years [2010, 2020])
      = [2010, 2020]) ∧
    (∀ r ∈ (ExtractSamplesS matC4 [2010, 2020] 2000).1.wais,
      r.length = ([2010, 2020] : List ℤ).length) ∧
    (∀ r ∈ (ExtractSamplesS matC4 [2010, 2020] 2000).1.eais,
      r.length = ([2010, 2020] : List ℤ).length) ∧
    (∀ r ∈ (ExtractSamplesS matC4 [2010, 2020] 2000).1.gis,
      r.length = ([2010, 2020] : List ℤ).length) :=
  claim_C4 matC4 [2010, 2020] 2000 (by decide) (by decide) (by decide)
    (by decide) (by decide)

/-! ### C8: the reference window of the scenario selector -/

lemma sliceL_length {α : Type} (l : List α) (i j : Nat) :
    (sliceL l i j).length = min j l.length - i := by
  simp [sliceL]

lemma sliceL_getD {α : Type} (l : List α) (i j k : Nat) (d : α)
    (hk : i + k < j) (hj : j ≤ l.length) :
    (sliceL l i j).getD k d = l.getD (i + k) d := by
  rw [List.getD_eq_getElem?_getD, List.getD_eq_getElem?_getD, sliceL,
    List.getElem?_drop, List.getElem?_take_of_lt hk]

lemma sliceL_eq_map_range {α : Type} (l : List α) (i j : Nat) (d : α)
    (hj : j ≤ l.length) (hij : i ≤ j) :
    sliceL l i j = (List.range (j - i)).map (fun k => l.getD (i + k) d) := by
  apply List.ext_getElem?
  intro n
  by_cases hn : n < j - i
  · have hin : i + n < j := by omega
    have hlen : i + n < l.length := by omega
    rw [sliceL, List.getElem?_drop, List.getElem?_take_of_lt hin,
      List.getElem?_map, List.getElem?_range hn]
    simp [List.getElem?_eq_getElem hlen, List.getD_eq_getElem l d hlen]
  · have h1 : (sliceL l i j).length ≤ n := by
      rw [sliceL_length]
      omega
    have h2 : ((List.range (j - i)).map
        (fun k => l.getD (i + k) d)).length ≤ n := by
      simpa using (by omega : j - i ≤ n)
    rw [List.getElem?_eq_none_iff.mpr h1, List.getElem?_eq_none_iff.mpr h2]

/-- C8 (amended).  On an annual year axis 1850..2300, the selector's
reference mean is taken over the years `1850 ≤ y < 1900` — the year 1900
itself is excluded (the slice's end index is not incremented) — and the
integrated forcing sums the normalized series over `2000 ≤ y < 2100`. -/
theorem claim_C8 (sat : List (List ℚ)) (hlen : sat.length = 451) :
    (SATaveOf ⟨arangeL 1850 2301, sat⟩ 1850 1900
      = colMean ((arangeL 1850 1900).map
          (fun t => sat.getD (t - 1850).toNat []))) ∧
    (iSATof ⟨arangeL 1850 2301, sat⟩
      = colSum ((arangeL 2000 2100).map (fun t =>
          List.zipWith (· - ·) (sat.getD (t - 1850).toNat [])
            (SATaveOf ⟨arangeL 1850 2301, sat⟩ 1850 1900)))) := by
  have hi1850 : flatnonzeroFirst (arangeL 1850 2301) 1850 = 0 := by decide
  have hi1900 : flatnonzeroFirst (arangeL 1850 2301) 1900 = 50 := by decide
  have hi2300 : flatnonzeroFirst (arangeL 1850 2301) 2300 = 450 := by decide
  have harange50 : arangeL 1850 1900
      = (List.range 50).map (fun k => (1850 : ℤ) + Int.ofNat k) := rfl
  have harange100 : arangeL 2000 2100
      = (List.range 100).map (fun k => (2000 : ℤ) + Int.ofNat k) := rfl
  have part1 : SATaveOf ⟨arangeL 1850 2301, sat⟩ 1850 1900
      = colMean ((arangeL 1850 1900).map
          (fun t => sat.getD (t - 1850).toNat [])) := by
    simp only [SATaveOf]
    rw [hi1850, hi1900,
      sliceL_eq_map_range sat 0 50 [] (by omega) (by omega), harange50,
      List.map_map]
    refine congrArg colMean (List.map_congr_left (fun k hk => ?_))
    have : ((1850 : ℤ) + Int.ofNat k - 1850).toNat = 0 + k := by
      have hcast : Int.ofNat k = (k : ℤ) := rfl
      rw [hcast]
      omega
    simp only [Function.comp_apply, this]
  refine ⟨part1, ?_⟩
  simp only [iSATof, GetSATData]
  have hx2 : (List.range (arangeL 1900 2301).length).filter
      (fun k => decide (2000 ≤ (arangeL 1900 2301).getD k 0 ∧
        (arangeL 1900 2301).getD k 0 < 2100))
      = (List.range 100).map (fun k => 100 + k) := by decide
  rw [hi1900, hi2300]
  simp only [show (450 : Nat) + 1 = 451 from rfl,
    show (2300 : ℤ) + 1 = 2301 from rfl]
  rw [hx2, List.map_map, harange100, List.map_map]
  have hslen : (sliceL sat 50 451).length = 401 := by
    rw [sliceL_length]
    omega
  refine congrArg colSum (List.map_congr_left (fun k hk => ?_))
  have hk100 : k < 100 := List.mem_range.mp hk
  simp only [Function.comp_apply]
  rw [getD_map_lt _ _ (100 + k) [] [] (by omega)]
  have harg : ((2000 : ℤ) + Int.ofNat k - 1850).toNat = 50 + (100 + k) := by
    have hcast : Int.ofNat k = (k : ℤ) := rfl
    rw [hcast]
    omega
  rw [sliceL_getD sat 50 451 (100 + k) [] (by omega) (by omega), harg]

/-- Counterexample to C8 as stated: on a dataset whose 1900 row is
nonzero, the code's reference mean (slice ending at the index of 1900,
exclusive) differs from the spec's 1850-through-1900 mean. -/
theorem claim_C8_counterexample :
    SATaveOf ⟨[1850, 1875, 1900], [[0], [0], [6]]⟩ 1850 1900
      ≠ refWindowMeanSpec ⟨[1850, 1875, 1900], [[0], [0], [6]]⟩ := by
  norm_num [SATaveOf, refWindowMeanSpec, flatnonzeroFirst, sliceL, colMean,
    colSum]

/-- Witness for C8 on a concrete annual-axis dataset. -/
theorem claim_C8_witness :
    (SATaveOf ⟨arangeL 1850 2301, List.replicate 451 ([] : List ℚ)⟩ 1850 1900
      = colMean ((arangeL 1850 1900).map
          (fun t => (List.replicate 451 ([] : List ℚ)).getD
            (t - 1850).toNat []))) ∧
    (iSATof ⟨arangeL 1850 2301, List.replicate 451 ([] : List ℚ)⟩
      = colSum ((arangeL 2000 2100).map (fun t =>
          List.zipWith (· - ·)
            ((List.replicate 451 ([] : List ℚ)).getD (t - 1850).toNat [])
            (SATaveOf ⟨arangeL 1850 2301, List.replicate 451 ([] : List ℚ)⟩
              1850 1900)))) :=
  claim_C8 (List.replicate 451 ([] : List ℚ)) (by simp)
